import Mathlib

/-!
Verification of the django-messages core (models.py, forms.py).

Shallow embedding of the two source files of the repository:

* src/django_messages/models.py — the Message model with its
  MessageManager query methods (inbox_for, outbox_for, trash_for),
  the overridden Message.save, and the module-level inbox_count_for.
* src/django_messages/forms.py — ComposeForm: field declarations and
  the save workflow that persists a message, links replies and fires
  notifications.

Modelling choices (framework semantics made explicit):

* A principal (a sender or recipient value) is the content-type id of its
  model class paired with its primary key, mirroring the generic
  foreign-key storage (s_content_type with s_object_id, r_content_type
  with r_object_id); ContentType.objects.get_for_model applied to a
  principal is its ctype component.
* Each call of timezone.now() reads a logical clock and advances it, so
  the relative order of timestamp assignments is the order of the calls
  in the code.
* The ORM: rows live in a list, primary keys are handed out from a
  counter starting at 1.  Model.save() INSERTs when the pk is None
  (assigning the next id) and otherwise UPDATEs the row with that id.
  Each write is recorded in a trace so that the order of persistence
  effects is observable.
* Python truthiness of self.id in Message.save (the line reading
  if not self.id:) is falsy for None and for 0.
* QuerySet.filter resolves the keyword names eagerly; a keyword naming a
  GenericForeignKey (recipient= or sender=) is not a database field and
  raises FieldError, exactly as the host framework documents for generic
  foreign keys.  Keywords naming real columns filter the rows.
* Referencing an unbound Python name (the r in the notification calls of
  ComposeForm.save) raises NameError at the point of use; side effects
  already performed (database writes, earlier notifications) remain.
-/

/-- A principal: the generic reference stored for sender and recipient,
i.e. the content-type id of the model class together with the object id. -/
structure Principal where
  ctype : Nat
  id : Nat
  deriving DecidableEq, Repr

/-- The Message row: one field per model field of class Message in
models.py.  Timestamps are logical-clock values; id is none before the
first persistence.  parentMsg holds the foreign-key column value (the
primary key of the parent). -/
structure Message where
  id : Option Nat
  subject : String
  body : String
  rContentType : Nat
  rObjectId : Nat
  sContentType : Nat
  sObjectId : Nat
  parentMsg : Option Nat
  sentAt : Option Nat
  readAt : Option Nat
  repliedAt : Option Nat
  senderDeletedAt : Option Nat
  recipientDeletedAt : Option Nat
  deriving DecidableEq, Repr

/-- The message table plus the primary-key counter (keys start at 1, as the
backing store assigns them). -/
structure DB where
  rows : List Message
  nextId : Nat
  deriving DecidableEq, Repr

/-- A persistence effect, recorded in the order the writes happen. -/
inductive DbEvent where
  | insert (id : Nat)
  | update (id : Nat)
  deriving DecidableEq, Repr

/-- One notification.send call: the recipient list, the event label and the
message passed as payload. -/
structure Notice where
  recipients : List Principal
  label : String
  payload : Message
  deriving DecidableEq, Repr

/-- Exceptions the embedded code can raise: the Python NameError for an
unbound name, and the ORM FieldError for an unresolvable filter keyword. -/
inductive PyError where
  | nameError (name : String)
  | fieldError (name : String)
  deriving DecidableEq, Repr

/-- Mutable world threaded through the workflow: the database, the logical
clock backing timezone.now(), the persistence trace and the notifications
sent so far. -/
structure State where
  db : DB
  clock : Nat
  trace : List DbEvent
  notices : List Notice
  deriving DecidableEq, Repr

/-- Python truthiness test used by the guard in Message.save: falsy for
None and for 0. -/
def idFalsy : Option Nat → Bool
  | none => true
  | some n => n == 0

/-- Embeds Message.save from models.py: assign sent_at from timezone.now()
when self.id is falsy, then perform the inherited save — INSERT with a
fresh primary key when the pk is None, otherwise UPDATE the row with that
pk.  Returns the (in-place mutated) message object together with the new
world state. -/
def Message.save (m : Message) (s : State) : Message × State :=
  let (m, s) :=
    if idFalsy m.id then
      ({ m with sentAt := some s.clock }, { s with clock := s.clock + 1 })
    else
      (m, s)
  match m.id with
  | none =>
      let m := { m with id := some s.db.nextId }
      (m, { s with
              db := { rows := s.db.rows ++ [m], nextId := s.db.nextId + 1 },
              trace := s.trace ++ [.insert s.db.nextId] })
  | some i =>
      (m, { s with
              db := { s.db with
                        rows := s.db.rows.map fun r => if r.id == some i then m else r },
              trace := s.trace ++ [.update i] })

/-- One keyword argument of a Message.objects.filter call in the source:
either a lookup on a real column, or a lookup naming a GenericForeignKey
(recipient= or sender=), which the query layer cannot resolve. -/
inductive Kwarg where
  | rObjectIdEq (n : Nat)
  | rContentTypeEq (n : Nat)
  | sObjectIdEq (n : Nat)
  | sContentTypeEq (n : Nat)
  | recipientDeletedAtIsNull (b : Bool)
  | senderDeletedAtIsNull (b : Bool)
  | readAtIsNull (b : Bool)
  | recipientEq (p : Principal)
  | senderEq (p : Principal)
  deriving DecidableEq, Repr

/-- The generic-foreign-key name a keyword refers to, if any. -/
def Kwarg.gfkName : Kwarg → Option String
  | .recipientEq _ => some ("recipient")
  | .senderEq _ => some ("sender")
  | _ => none

/-- Column-level evaluation of a keyword on a row (only meaningful for
keywords whose gfkName is none). -/
def Kwarg.eval : Kwarg → Message → Bool
  | .rObjectIdEq n, m => m.rObjectId == n
  | .rContentTypeEq n, m => m.rContentType == n
  | .sObjectIdEq n, m => m.sObjectId == n
  | .sContentTypeEq n, m => m.sContentType == n
  | .recipientDeletedAtIsNull b, m => m.recipientDeletedAt.isNone == b
  | .senderDeletedAtIsNull b, m => m.senderDeletedAt.isNone == b
  | .readAtIsNull b, m => m.readAt.isNone == b
  | .recipientEq _, _ => false
  | .senderEq _, _ => false

/-- Embeds Message.objects.filter: keyword names are resolved when the
filter is built; a keyword naming a GenericForeignKey raises FieldError,
otherwise the rows satisfying every condition are returned. -/
def filterQ (kwargs : List Kwarg) (db : DB) : Except PyError (List Message) :=
  match kwargs.findSome? Kwarg.gfkName with
  | some n => .error (.fieldError n)
  | none => .ok (db.rows.filter fun m => kwargs.all fun k => k.eval m)

namespace MessageManager

/-- Embeds MessageManager.inbox_for from models.py: filter on
r_object_id=user.id, r_content_type=get_for_model(user),
recipient_deleted_at__isnull=True. -/
def inbox_for (user : Principal) (db : DB) : Except PyError (List Message) :=
  filterQ
    [.rObjectIdEq user.id, .rContentTypeEq user.ctype,
     .recipientDeletedAtIsNull true] db

/-- Embeds MessageManager.outbox_for from models.py: filter on
s_object_id=user.id, s_content_type=get_for_model(user),
sender_deleted_at__isnull=True. -/
def outbox_for (user : Principal) (db : DB) : Except PyError (List Message) :=
  filterQ
    [.sObjectIdEq user.id, .sContentTypeEq user.ctype,
     .senderDeletedAtIsNull true] db

/-- The OR-combination of two query sets over the same table: rows
satisfying either branch, without duplication. -/
def qsOr (a b : List Message) (db : DB) : List Message :=
  db.rows.filter fun m => decide (m ∈ a) || decide (m ∈ b)

/-- Embeds MessageManager.trash_for from models.py: the OR-combination of
filter(recipient=user, recipient_deleted_at__isnull=False) and
filter(sender=user, sender_deleted_at__isnull=False).  Both filters use the
GenericForeignKey names recipient and sender as keywords. -/
def trash_for (user : Principal) (db : DB) : Except PyError (List Message) := do
  let a ← filterQ [.recipientEq user, .recipientDeletedAtIsNull false] db
  let b ← filterQ [.senderEq user, .senderDeletedAtIsNull false] db
  pure (qsOr a b db)

end MessageManager

/-- Embeds inbox_count_for from models.py: count the rows matching
r_object_id=obj.id, r_content_type=get_for_model(obj),
read_at__isnull=True, recipient_deleted_at__isnull=True — a read-only
query returning a count; the world state is passed through untouched. -/
def inbox_count_for (obj : Principal) (s : State) : Except PyError Nat × State :=
  ((filterQ
      [.rObjectIdEq obj.id, .rContentTypeEq obj.ctype,
       .readAtIsNull true, .recipientDeletedAtIsNull true] s.db).map
    List.length, s)

/-- Outcome of a Python call with side effects: a normal return or a raised
exception; either way the world state reflects the effects performed before
the return or the raise. -/
inductive Outcome (α : Type) where
  | ok (val : α) (s : State)
  | err (e : PyError) (s : State)
  deriving DecidableEq, Repr

/-- The state carried by an outcome. -/
def Outcome.state : Outcome α → State
  | .ok _ s => s
  | .err _ s => s

/-- The exception carried by an outcome, if it raised one. -/
def Outcome.error? : Outcome α → Option PyError
  | .ok _ _ => none
  | .err e _ => some e

/-- Embeds one notification.send call with the message as payload. -/
def sendNotice (s : State) (recipients : List Principal) (label : String)
    (payload : Message) : State :=
  { s with notices := s.notices ++ [⟨recipients, label, payload⟩] }

namespace ComposeForm

/-- Embeds ComposeForm.save from forms.py.  The notification flag says
whether the in-app notification collaborator is installed and enabled.  The
body follows the source line by line: build the unsaved Message from the
cleaned data; if a parent_msg was given, point the new message at it, stamp
replied_at on the parent with timezone.now() and save the parent; save the
new message; then, when notifications are on, send the event for the sender
and evaluate the unbound name r for the second send call, which raises
NameError. -/
def save (sender recipient : Principal) (subject body : String)
    (parent_msg : Option Message) (notification : Bool) (s : State) :
    Outcome (List Message) :=
  let msg : Message :=
    { id := none, subject := subject, body := body,
      rContentType := recipient.ctype, rObjectId := recipient.id,
      sContentType := sender.ctype, sObjectId := sender.id,
      parentMsg := none, sentAt := none, readAt := none, repliedAt := none,
      senderDeletedAt := none, recipientDeletedAt := none }
  let (msg, s) :=
    match parent_msg with
    | some parent =>
        let msg := { msg with parentMsg := parent.id }
        let parent := { parent with repliedAt := some s.clock }
        let s := { s with clock := s.clock + 1 }
        let (_, s) := parent.save s
        (msg, s)
    | none => (msg, s)
  let (msg, s) := msg.save s
  let message_list := [msg]
  if notification then
    match parent_msg with
    | some _ =>
        let s := sendNotice s [sender] ("messages_replied") msg
        .err (.nameError ("r")) s
    | none =>
        let s := sendNotice s [sender] ("messages_sent") msg
        .err (.nameError ("r")) s
  else
    .ok message_list s

/-- Validation induced by the field declarations of ComposeForm in
forms.py: subject is a CharField with max_length 120 (required, at most 120
characters) and body is a required CharField.  A required CharField rejects
the empty string; max_length rejects longer input. -/
def is_valid (subject body : String) : Bool :=
  subject != "" && subject.length ≤ 120 && body != ""

end ComposeForm

/-- Result of one compose or reply request: validation failure (form
re-rendered, nothing persisted), successful save, or an exception raised
inside ComposeForm.save. -/
inductive WorkflowResult where
  | validationError (s : State)
  | saved (msgs : List Message) (s : State)
  | raised (e : PyError) (s : State)
  deriving DecidableEq, Repr

/-- Whether the workflow ended in a validation failure. -/
def WorkflowResult.isValidationError : WorkflowResult → Bool
  | .validationError _ => true
  | _ => false

/-- The state carried by a workflow result. -/
def WorkflowResult.state : WorkflowResult → State
  | .validationError s => s
  | .saved _ s => s
  | .raised _ s => s

/-- The message list a successful save returned, if any. -/
def WorkflowResult.returned : WorkflowResult → Option (List Message)
  | .saved msgs _ => some msgs
  | _ => none

/-- Modelled from the spec: the view-level compose and reply workflow (the
views.py of the repository is not under src/; only forms.py and models.py
are).  Per the spec it validates the submitted fields and, only when they
are valid, calls ComposeForm.save; a validation failure is surfaced to the
caller before any persistence occurs. -/
def composeWorkflow (sender recipient : Principal) (subject body : String)
    (parent_msg : Option Message) (notification : Bool) (s : State) :
    WorkflowResult :=
  if ComposeForm.is_valid subject body then
    match ComposeForm.save sender recipient subject body parent_msg notification s with
    | .ok msgs s' => .saved msgs s'
    | .err e s' => .raised e s'
  else
    .validationError s

/-! Concrete fixtures used by witnesses and counterexamples: two principals
of the same model class, an empty initial database, and the world after one
successful compose from userA to userB without notifications. -/

/-- The sending principal of the concrete scenario. -/
def userA : Principal := ⟨1, 1⟩

/-- The receiving principal of the concrete scenario. -/
def userB : Principal := ⟨1, 2⟩

/-- An empty database whose clock starts at 10. -/
def state0 : State := ⟨⟨[], 1⟩, 10, [], []⟩

/-- The message persisted by the first compose of the concrete scenario. -/
def msg1 : Message :=
  { id := some 1, subject := "Hi", body := "Hello",
    rContentType := 1, rObjectId := 2, sContentType := 1, sObjectId := 1,
    parentMsg := none, sentAt := some 10, readAt := none, repliedAt := none,
    senderDeletedAt := none, recipientDeletedAt := none }

/-- The world after the first compose of the concrete scenario. -/
def state1 : State := ⟨⟨[msg1], 2⟩, 11, [.insert 1], []⟩

/-- An unsaved draft message (no primary key yet), used as a concrete
first-persistence input. -/
def draft0 : Message :=
  { id := none, subject := "Hi", body := "Hello",
    rContentType := 1, rObjectId := 2, sContentType := 1, sObjectId := 1,
    parentMsg := none, sentAt := none, readAt := none, repliedAt := none,
    senderDeletedAt := none, recipientDeletedAt := none }

/-- The reply message persisted in the concrete reply scenario. -/
def msg2 : Message :=
  { id := some 2, subject := "Re", body := "Yo",
    rContentType := 1, rObjectId := 1, sContentType := 1, sObjectId := 2,
    parentMsg := some 1, sentAt := some 12, readAt := none, repliedAt := none,
    senderDeletedAt := none, recipientDeletedAt := none }

/-- The row a compose call with no parent persists, given the world it runs
in: fresh primary key, fields from the form data and the two principals,
sent_at from the clock, every other timestamp null. -/
def composedRow (sender recipient : Principal) (subject body : String)
    (s : State) : Message :=
  { id := some s.db.nextId, subject := subject, body := body,
    rContentType := recipient.ctype, rObjectId := recipient.id,
    sContentType := sender.ctype, sObjectId := sender.id,
    parentMsg := none, sentAt := some s.clock, readAt := none, repliedAt := none,
    senderDeletedAt := none, recipientDeletedAt := none }

/-- Sanity check for the fixtures: state1 is exactly the world produced by
composing msg1 from userA to userB on the empty database. -/
theorem state1_eq :
    (ComposeForm.save userA userB ("Hi") ("Hello") none false state0).state = state1 := rfl

/-- Closed form of ComposeForm.save when no parent message is given: the
new row is appended with a fresh key and sent_at from the clock; with
notifications on, the sender notice is sent and the unbound name r raises. -/
theorem save_none_eq (sender recipient : Principal) (subject body : String)
    (notification : Bool) (s : State) :
    ComposeForm.save sender recipient subject body none notification s =
      (let newMsg : Message :=
        { id := some s.db.nextId, subject := subject, body := body,
          rContentType := recipient.ctype, rObjectId := recipient.id,
          sContentType := sender.ctype, sObjectId := sender.id,
          parentMsg := none, sentAt := some s.clock, readAt := none, repliedAt := none,
          senderDeletedAt := none, recipientDeletedAt := none }
       let s' : State :=
        { db := ⟨s.db.rows ++ [newMsg], s.db.nextId + 1⟩,
          clock := s.clock + 1,
          trace := s.trace ++ [.insert s.db.nextId],
          notices := s.notices }
       if notification then
         Outcome.err (.nameError ("r")) (sendNotice s' [sender] ("messages_sent") newMsg)
       else
         Outcome.ok [newMsg] s') := rfl

/-- Closed form of ComposeForm.save when a persisted parent (primary key
p, and db keys are never 0) is given: the parent row is updated with
replied_at stamped, then the new row is inserted pointing at the parent. -/
theorem save_some_eq (sender recipient : Principal) (subject body : String)
    (parent : Message) (p : Nat) (notification : Bool) (s : State)
    (hp : parent.id = some p) (hpos : p ≠ 0) :
    ComposeForm.save sender recipient subject body (some parent) notification s =
      (let parentUpd : Message := { parent with repliedAt := some s.clock }
       let newMsg : Message :=
        { id := some s.db.nextId, subject := subject, body := body,
          rContentType := recipient.ctype, rObjectId := recipient.id,
          sContentType := sender.ctype, sObjectId := sender.id,
          parentMsg := some p, sentAt := some (s.clock + 1), readAt := none,
          repliedAt := none, senderDeletedAt := none, recipientDeletedAt := none }
       let s' : State :=
        { db := ⟨(s.db.rows.map fun r => if r.id == some p then parentUpd else r) ++ [newMsg],
                 s.db.nextId + 1⟩,
          clock := s.clock + 2,
          trace := s.trace ++ [.update p, .insert s.db.nextId],
          notices := s.notices }
       if notification then
         Outcome.err (.nameError ("r")) (sendNotice s' [sender] ("messages_replied") newMsg)
       else
         Outcome.ok [newMsg] s') := by
  have hfalsy : idFalsy parent.id = false := by
    simp [idFalsy, hp, hpos]
  simp only [ComposeForm.save, Message.save, idFalsy, hp, hfalsy]
  simp [hp, hpos, sendNotice]

/-- C1: the claim says a successful compose or reply with notifications
enabled notifies the sender and the recipient with the matching events.
The code notifies only the sender and then evaluates the undefined name r
for the second notification, raising NameError: shown here on a concrete
new-thread call and a concrete reply call. -/
theorem c1_notification_raises_name_error :
    ((ComposeForm.save userA userB ("Hi") ("Hello") none true state0).error?
        = some (.nameError ("r")) ∧
     (ComposeForm.save userA userB ("Hi") ("Hello") none true state0).state.notices
        = [⟨[userA], "messages_sent", msg1⟩]) ∧
    ((ComposeForm.save userB userA ("Re") ("Yo") (some msg1) true state1).error?
        = some (.nameError ("r")) ∧
     (ComposeForm.save userB userA ("Re") ("Yo") (some msg1) true state1).state.notices
        = [⟨[userB], "messages_replied", msg2⟩]) :=
  ⟨⟨rfl, rfl⟩, ⟨rfl, rfl⟩⟩

/-- C2: the claim says trash_for(u) returns the union of the deleted
messages of u.  The code filters on the GenericForeignKey names recipient
and sender, which the query layer cannot resolve, so every call raises
FieldError instead of returning any messages. -/
theorem c2_trash_for_raises_field_error (u : Principal) (db : DB) :
    MessageManager.trash_for u db = .error (.fieldError ("recipient")) := rfl

/-- C3 counterexample: the claim orders the effects as: persist the new
message first, then update the parent.  On a concrete reply call the trace
shows the parent update is persisted before the new message is inserted,
refuting the claimed order. -/
theorem c3_persist_order_counterexample :
    (ComposeForm.save userB userA ("Re") ("Yo") (some msg1) false state1).state.trace
        = [.insert 1, .update 1, .insert 2] ∧
    ¬ ((ComposeForm.save userB userA ("Re") ("Yo") (some msg1) false state1).state.trace
        = [.insert 1, .insert 2, .update 1]) :=
  ⟨rfl, by decide⟩

/-- C3 (amended): on a successful call the workflow constructs the new
message; if a parent was provided it first persists the parent update
(replied_at stamped), and only then persists the new message; with no
parent the only persistence effect is the insert of the new message. -/
theorem c3_effect_order_amended (sender recipient : Principal)
    (subject body : String) (parent : Message) (p : Nat)
    (notification : Bool) (s : State)
    (hp : parent.id = some p) (hpos : p ≠ 0) :
    (ComposeForm.save sender recipient subject body (some parent) notification s).state.trace
        = s.trace ++ [.update p, .insert s.db.nextId] ∧
    (ComposeForm.save sender recipient subject body none notification s).state.trace
        = s.trace ++ [.insert s.db.nextId] := by
  rw [save_some_eq sender recipient subject body parent p notification s hp hpos,
      save_none_eq]
  constructor <;> cases notification <;> simp [Outcome.state, sendNotice]

/-- Witness for C3 (amended) at the concrete reply scenario. -/
theorem c3_effect_order_amended_witness :
    (ComposeForm.save userB userA ("Re") ("Yo") (some msg1) false state1).state.trace
        = state1.trace ++ [.update 1, .insert 2] ∧
    (ComposeForm.save userB userA ("Re") ("Yo") none false state1).state.trace
        = state1.trace ++ [.insert 2] :=
  c3_effect_order_amended userB userA ("Re") ("Yo") msg1 1 false state1 rfl (by decide)

/-- C4: after any reply call whose parent is already persisted (primary
key p, present in the table; db keys are never 0), the table holds a row
with key p whose replied_at is stamped with the call time, and the newly
created row points at p through parent_msg.  This holds whether or not the
notification step subsequently raises. -/
theorem c4_reply_sets_replied_at_and_parent_link (sender recipient : Principal)
    (subject body : String) (parent : Message) (p : Nat)
    (notification : Bool) (s : State)
    (hp : parent.id = some p) (hpos : p ≠ 0)
    (hrow : ∃ r ∈ s.db.rows, r.id = some p) :
    (∃ r ∈ (ComposeForm.save sender recipient subject body (some parent) notification s).state.db.rows,
        r.id = some p ∧ r.repliedAt = some s.clock) ∧
    (∃ r ∈ (ComposeForm.save sender recipient subject body (some parent) notification s).state.db.rows,
        r.id = some s.db.nextId ∧ r.parentMsg = some p) := by
  rw [save_some_eq sender recipient subject body parent p notification s hp hpos]
  obtain ⟨r0, hr0, hid⟩ := hrow
  have hmem : ({ parent with repliedAt := some s.clock } : Message) ∈
      s.db.rows.map fun r => if r.id == some p then { parent with repliedAt := some s.clock } else r := by
    have himg : (if r0.id == some p then { parent with repliedAt := some s.clock } else r0)
        = { parent with repliedAt := some s.clock } := by
      simp [hid]
    exact List.mem_map.mpr ⟨r0, hr0, himg⟩
  cases notification <;>
    simp only [if_true, if_false, Bool.false_eq_true, Bool.true_eq_false, ite_true, ite_false,
      Outcome.state, sendNotice] <;>
    exact ⟨⟨{ parent with repliedAt := some s.clock },
            List.mem_append_left _ hmem, by simp [hp], rfl⟩,
           ⟨_, List.mem_append_right _ (List.mem_singleton_self _), rfl, rfl⟩⟩

/-- Witness for C4 at the concrete reply scenario: replying to msg1 stamps
replied_at on row 1 and links row 2 to it. -/
theorem c4_reply_sets_replied_at_and_parent_link_witness :
    (∃ r ∈ (ComposeForm.save userB userA ("Re") ("Yo") (some msg1) false state1).state.db.rows,
        r.id = some 1 ∧ r.repliedAt = some 11) ∧
    (∃ r ∈ (ComposeForm.save userB userA ("Re") ("Yo") (some msg1) false state1).state.db.rows,
        r.id = some 2 ∧ r.parentMsg = some 1) :=
  c4_reply_sets_replied_at_and_parent_link userB userA ("Re") ("Yo") msg1 1 false state1
    rfl (by decide) ⟨msg1, by simp [state1], rfl⟩

/-- C5 counterexample: the claim says every valid compose call returns the
list with the created message.  With the notification collaborator enabled
the call raises NameError before returning, so the workflow returns no
list, refuting the claim as stated. -/
theorem c5_notification_raise_counterexample :
    ComposeForm.is_valid ("Hi") ("Hello") = true ∧
    (composeWorkflow userA userB ("Hi") ("Hello") none true state0).returned = none ∧
    (composeWorkflow userA userB ("Hi") ("Hello") none true state0)
        = .raised (.nameError ("r"))
            (composeWorkflow userA userB ("Hi") ("Hello") none true state0).state :=
  ⟨rfl, rfl, rfl⟩

/-- C5 (amended): every valid compose call persists exactly one new
Message, with sent_at equal to the save time and read_at and replied_at
null; when the in-app notification dispatch is disabled the workflow
additionally returns the list containing exactly that message (with
notifications enabled the undefined-name defect raises before the return,
though the message is still persisted). -/
theorem c5_compose_persists_and_returns (sender recipient : Principal)
    (subject body : String) (notification : Bool) (s : State)
    (hv : ComposeForm.is_valid subject body = true) :
    (composeWorkflow sender recipient subject body none notification s).state.db.rows
        = s.db.rows ++ [composedRow sender recipient subject body s] ∧
    (notification = false →
      (composeWorkflow sender recipient subject body none notification s).returned
        = some [composedRow sender recipient subject body s]) := by
  simp only [composeWorkflow, hv, if_true]
  rw [save_none_eq]
  cases notification <;>
    simp [Outcome.state, WorkflowResult.returned, WorkflowResult.state, sendNotice, composedRow]

/-- Witness for C5 (amended) at the concrete compose scenario. -/
theorem c5_compose_persists_and_returns_witness :
    (composeWorkflow userA userB ("Hi") ("Hello") none false state0).returned
        = some [composedRow userA userB ("Hi") ("Hello") state0] :=
  (c5_compose_persists_and_returns userA userB ("Hi") ("Hello") false state0 (by decide)).2 rfl

/-- C6: the workflow fails with a validation error exactly when the
subject is empty, the subject exceeds 120 characters, or the body is
empty; and in that case the world state is untouched — nothing is
persisted and no parent is updated. -/
theorem c6_validation_boundary (sender recipient : Principal)
    (subject body : String) (parent_msg : Option Message)
    (notification : Bool) (s : State) :
    ((composeWorkflow sender recipient subject body parent_msg notification s).isValidationError = true
        ↔ (subject = "" ∨ 120 < subject.length ∨ body = "")) ∧
    ((composeWorkflow sender recipient subject body parent_msg notification s).isValidationError = true →
        (composeWorkflow sender recipient subject body parent_msg notification s).state = s) := by
  by_cases h : ComposeForm.is_valid subject body = true
  · have hc : ¬(subject = "" ∨ 120 < subject.length ∨ body = "") := by
      simp only [ComposeForm.is_valid, Bool.and_eq_true, bne_iff_ne, ne_eq,
        decide_eq_true_eq] at h
      push_neg
      exact ⟨h.1.1, by omega, h.2⟩
    simp only [composeWorkflow, h, if_true]
    cases hs : ComposeForm.save sender recipient subject body parent_msg notification s <;>
      simp [WorkflowResult.isValidationError, hc]
  · have hb : ComposeForm.is_valid subject body = false := by
      simpa using h
    have hc : subject = "" ∨ 120 < subject.length ∨ body = "" := by
      by_contra hnc
      push_neg at hnc
      obtain ⟨h1, h2, h3⟩ := hnc
      have hv : ComposeForm.is_valid subject body = true := by
        simp only [ComposeForm.is_valid, Bool.and_eq_true, bne_iff_ne, ne_eq,
          decide_eq_true_eq]
        exact ⟨⟨h1, by omega⟩, h3⟩
      rw [hv] at hb
      exact absurd hb (by simp)
    simp only [composeWorkflow, hb, Bool.false_eq_true, if_false]
    simp [WorkflowResult.isValidationError, WorkflowResult.state, hc]

/-- Witness for C6: an empty subject yields a validation failure that
leaves the world untouched. -/
theorem c6_validation_boundary_witness :
    (composeWorkflow userA userB ("") ("Hello") none false state0).state = state0 :=
  (c6_validation_boundary userA userB ("") ("Hello") none false state0).2
    ((c6_validation_boundary userA userB ("") ("Hello") none false state0).1.mpr (Or.inl rfl))

/-- C7: a message is in the list inbox_for(u) returns exactly when it is a
table row whose recipient reference is u and whose recipient_deleted_at is
null; in particular no recipient-deleted message ever appears. -/
theorem c7_inbox_membership (u : Principal) (db : DB) (L : List Message)
    (m : Message) (h : MessageManager.inbox_for u db = .ok L) :
    m ∈ L ↔ (m ∈ db.rows ∧ m.rObjectId = u.id ∧ m.rContentType = u.ctype ∧
             m.recipientDeletedAt = none) := by
  have hL : L = db.rows.filter fun m =>
      [Kwarg.rObjectIdEq u.id, Kwarg.rContentTypeEq u.ctype,
       Kwarg.recipientDeletedAtIsNull true].all fun k => k.eval m := by
    have h' := h
    simp only [MessageManager.inbox_for, filterQ, List.findSome?, Kwarg.gfkName] at h'
    exact (Except.ok.injEq _ _ ▸ congrArg id h').symm
  subst hL
  simp [List.mem_filter, Kwarg.eval, List.all_cons, List.all_nil,
    Option.isNone_iff_eq_none, and_assoc]

/-- Witness for C7: msg1 is in the inbox of userB, so the characterization
yields its defining properties at a concrete input. -/
theorem c7_inbox_membership_witness :
    msg1 ∈ state1.db.rows ∧ msg1.rObjectId = userB.id ∧
      msg1.rContentType = userB.ctype ∧ msg1.recipientDeletedAt = none :=
  (c7_inbox_membership userB state1.db [msg1] msg1 rfl).mp (List.mem_singleton_self msg1)

/-- C8: sent_at is assigned exactly once, at first persistence: saving a
message with no primary key stamps sent_at with the current time and
inserts the row; saving an already-persisted message (primary key i, and
db keys are never 0) leaves sent_at untouched both on the object and on
every stored row with that key. -/
theorem c8_sent_at_write_once (m : Message) (s : State) :
    (m.id = none →
      (m.save s).1.sentAt = some s.clock ∧
      (m.save s).2.db.rows = s.db.rows ++ [(m.save s).1]) ∧
    (∀ i, m.id = some i → i ≠ 0 →
      (m.save s).1.sentAt = m.sentAt ∧
      ∀ r ∈ (m.save s).2.db.rows, r.id = some i → r.sentAt = m.sentAt) := by
  constructor
  · intro hid
    simp [Message.save, idFalsy, hid]
  · intro i hid hpos
    have hfalsy : idFalsy (some i) = false := by simp [idFalsy, hpos]
    simp only [Message.save, hid, hfalsy, Bool.false_eq_true, if_false]
    refine ⟨by trivial, ?_⟩
    intro r hr hrid
    simp only [List.mem_map] at hr
    obtain ⟨r0, hr0, hfr⟩ := hr
    by_cases hc : (r0.id == some i) = true
    · rw [if_pos hc] at hfr
      rw [← hfr]
    · rw [if_neg hc] at hfr
      rw [← hfr] at hrid
      simp [hrid] at hc

/-- Witness for C8: first save of draft0 stamps sent_at with the clock;
a later save of the persisted msg1 leaves its sent_at unchanged. -/
theorem c8_sent_at_write_once_witness :
    ((draft0.save state0).1.sentAt = some state0.clock ∧
     (draft0.save state0).2.db.rows = state0.db.rows ++ [(draft0.save state0).1]) ∧
    ((msg1.save state1).1.sentAt = msg1.sentAt ∧
     ∀ r ∈ (msg1.save state1).2.db.rows, r.id = some 1 → r.sentAt = msg1.sentAt) :=
  ⟨(c8_sent_at_write_once draft0 state0).1 rfl,
   (c8_sent_at_write_once msg1 state1).2 1 rfl (by decide)⟩

/-- C9: recipient-side soft deletion is invisible to the sender outbox:
setting recipient_deleted_at on the rows changes which field value each
row carries but not which rows outbox_for(u) selects, because the outbox
filter reads only the sender reference and sender_deleted_at. -/
theorem c9_outbox_ignores_recipient_deletion (u : Principal) (db : DB)
    (t : Option Nat) :
    MessageManager.outbox_for u
        ⟨db.rows.map fun m => { m with recipientDeletedAt := t }, db.nextId⟩
      = Except.map (List.map fun m => { m with recipientDeletedAt := t })
          (MessageManager.outbox_for u db) := by
  simp only [MessageManager.outbox_for, filterQ, List.findSome?, Kwarg.gfkName, Except.map]
  rw [List.filter_map]
  rfl

/-- C10: inbox_count_for(obj) returns exactly the number of rows whose
recipient reference is obj with read_at null and recipient_deleted_at
null, and it leaves the world state — in particular every read_at —
untouched. -/
theorem c10_inbox_count_unread_and_pure (obj : Principal) (s : State) :
    (inbox_count_for obj s).2 = s ∧
    (inbox_count_for obj s).1 =
      Except.ok (s.db.rows.countP fun m =>
        decide (m.rObjectId = obj.id ∧ m.rContentType = obj.ctype ∧
                m.readAt = none ∧ m.recipientDeletedAt = none)) := by
  refine ⟨rfl, ?_⟩
  simp only [inbox_count_for, filterQ, List.findSome?, Kwarg.gfkName, Except.map]
  rw [List.countP_eq_length_filter]
  congr 1
  congr 1
  apply List.filter_congr
  intro m _
  simp only [List.all_cons, List.all_nil, Kwarg.eval, Bool.and_true,
    Option.isNone_iff_eq_none]
  rw [Bool.eq_iff_iff]
  simp [and_assoc]
